import Mathlib

/-!
Verification development for the Genie/Slack relay bot.

Shallow embedding of the orchestration core:
* `genie_client.py` — `GenieClient._poll_until_done`, `GenieClient._parse_response`,
  `GenieClient.ask`;
* `slack_bot.py` — `SlackGenieBot._handle_question`, `SlackGenieBot._format_query_result`,
  `SlackGenieBot._format_answer`, `SlackGenieBot._handle_feedback`.

Modelling conventions:
* Python dict lookups with optional keys become `Option` fields; a missing key and a
  `None` value are both `none` whenever the code treats them alike (it always does here).
* Python string truthiness (`if s:` is false for `None` and `""`) is `pyStrTruthy`;
  `a or b` on such values is `pyOr`.
* HTTP calls are oracles passed in as functions; a transport failure (the code's
  `_request` returning `None`) is `none`.  A query-result payload that is falsy in
  Python (`None` or an empty body `{}`) is likewise `none`, since `_parse_response`
  only ever tests it with `if qr:`.
* Wall-clock time in `_poll_until_done` is a logical clock: iteration `k` runs at
  time `k * poll_interval`, and runs only while that time is below `max_wait`
  (the loop's `time.time() < deadline` with `deadline = start + max_wait`; each
  `time.sleep(poll_interval)` advances the clock by `poll_interval`).  The loop is
  written with fuel `max_wait + 1`, which is never exhausted when `poll_interval ≥ 1`.
* `str.strip()` is `pyStrip`, implemented directly over the character list.
-/

/-- Python string truthiness: `None` and `""` are falsy. -/
def pyStrTruthy : Option String → Bool
  | none => false
  | some s => if s = "" then false else true

/-- Python `a or b` on optional strings: returns `a` when truthy, else `b`. -/
def pyOr (a b : Option String) : Option String :=
  match a with
  | some s => if s = "" then b else some s
  | none => b

/-- Python `str.strip()`: drop whitespace from both ends. -/
def pyStrip (s : String) : String :=
  String.mk (((s.data.dropWhile Char.isWhitespace).reverse.dropWhile Char.isWhitespace).reverse)

/-- A cell value as rendered by the code: `str(val) if val is not None else ""`.
`some s` stands for a scalar whose `str()` is `s`; `none` is Python `None`. -/
def cellStr (v : Option String) : String := v.getD ""

/-- One column descriptor from `manifest.schema.columns` (only its optional `name`
is read, via `c.get("name", f"col_{i}")`). -/
structure ColumnMeta where
  name : Option String
deriving Repr, DecidableEq

/-- The query-result payload of `get_query_result`, as read by
`SlackGenieBot._format_query_result`: `manifest.schema.columns` (default `[]`),
`result.data_array` (default `[]`) and the optional `result.row_count`. -/
structure QueryResult where
  columns : List ColumnMeta
  data_array : List (List (Option String))
  row_count : Option Nat
deriving Repr, DecidableEq

/-- The `att["text"]` sub-dict: only `content` (default `""`) is read. -/
structure TextAtt where
  content : String
deriving Repr, DecidableEq

/-- The `att["query"]` sub-dict: `description` (default `""`) and the optional
`query` string. -/
structure QueryAtt where
  description : String
  query : Option String
deriving Repr, DecidableEq

/-- One element of `msg["attachments"]`: may carry a `text` part, a `query` part
and an `attachment_id`. -/
structure Attachment where
  text : Option TextAtt
  query : Option QueryAtt
  attachment_id : Option String
deriving Repr, DecidableEq

/-- A raw message payload as returned by `get_message`: `status`, the attachment
list (`msg.get("attachments") or []`), `content` (default `""`) and the message
of the nested `error` dict when present. -/
structure GenieMsg where
  status : Option String
  attachments : List Attachment
  content : String
  errorMessage : Option String
deriving Repr, DecidableEq

/-- The normalized dict built by `GenieClient._parse_response` / `GenieClient.ask`.
Keys that a branch leaves out of its dict are `none` here. -/
structure NormalizedAnswer where
  success : Bool
  conversation_id : Option String
  message_id : Option String
  text : Option String
  sql : Option String
  result_data : Option QueryResult
  attachments : List Attachment
  error : Option String
deriving Repr, DecidableEq

/-- Accumulator of the attachment loop in `_parse_response`.  The `fetched` field
is instrumentation: it records, in order, the attachment ids passed to
`get_query_result`, so that call behaviour can be stated; it mirrors no Python
variable. -/
structure ParseState where
  text_parts : List String
  sql_text : Option String
  result_data : Option QueryResult
  fetched : List String
deriving Repr, DecidableEq

/-- One iteration of the `for att in attachments` loop of `_parse_response`. -/
def parseStep (fetchQR : String → Option QueryResult) (s : ParseState) (att : Attachment) :
    ParseState :=
  let s1 := match att.text with
    | some t => if t.content = "" then s else { s with text_parts := s.text_parts ++ [t.content] }
    | none => s
  match att.query with
  | none => s1
  | some q =>
    let s2 := if q.description = "" then s1
      else { s1 with text_parts := s1.text_parts ++ [q.description] }
    let s3 := { s2 with sql_text := q.query }
    match att.attachment_id with
    | none => s3
    | some aid =>
      if aid = "" then s3
      else
        let s4 := { s3 with fetched := s3.fetched ++ [aid] }
        match fetchQR aid with
        | some qr => { s4 with result_data := some qr }
        | none => s4

/-- The whole attachment loop of `_parse_response`. -/
def parseAttachments (fetchQR : String → Option QueryResult) (atts : List Attachment) :
    ParseState :=
  atts.foldl (parseStep fetchQR) ⟨[], none, none, []⟩

/-- `GenieClient._parse_response`.  `fetchQR` is `get_query_result` with the
conversation and message ids already applied. -/
def parseResponse (fetchQR : String → Option QueryResult) (cid mid : String) (msg : GenieMsg) :
    NormalizedAnswer :=
  if msg.status ≠ some "COMPLETED" then
    { success := false, conversation_id := some cid, message_id := some mid,
      text := none, sql := none, result_data := none, attachments := [],
      error := some (msg.errorMessage.getD "Unknown error") }
  else
    let st := parseAttachments fetchQR msg.attachments
    let joined := String.intercalate "\n\n" st.text_parts
    let response_text := if joined = "" then msg.content else joined
    { success := true, conversation_id := some cid, message_id := some mid,
      text := some (pyStrip response_text), sql := st.sql_text,
      result_data := st.result_data, attachments := msg.attachments, error := none }

/-- `GenieClient._poll_until_done`, instrumented with the number of `get_message`
calls (second component).  `fetch k` is the backend's reply to the status fetch of
iteration `k`; `none` is a transport failure.  Iteration `k` runs at logical time
`k * interval`, and the loop guard is `time < deadline`, i.e. `k * interval < maxWait`.
The structural fuel only makes the recursion obviously terminating; it is never
exhausted when `0 < interval` (proved below). -/
def pollGoF (fetch : Nat → Option GenieMsg) (interval maxWait : Nat) :
    Nat → Nat → Option GenieMsg × Nat
  | _, 0 => (none, 0)
  | k, fuel + 1 =>
    if k * interval < maxWait then
      match fetch k with
      | none => (none, 1)
      | some m =>
        if m.status = some "COMPLETED" then (some m, 1)
        else if m.status = some "FAILED" ∨ m.status = some "CANCELLED" then (some m, 1)
        else
          let r := pollGoF fetch interval maxWait (k + 1) fuel
          (r.1, r.2 + 1)
    else (none, 0)

/-- `_poll_until_done` from the top of the loop. -/
def pollUntilDone (fetch : Nat → Option GenieMsg) (interval maxWait : Nat) :
    Option GenieMsg × Nat :=
  pollGoF fetch interval maxWait 0 (maxWait + 1)

/-- `message_data = raw.get("message", raw)` reads these two keys of the message
dict. -/
structure MsgData where
  conversation_id : Option String
  id : Option String
deriving Repr, DecidableEq

/-- The raw reply of `start_conversation` / `create_message`, as read by `ask`:
the optional nested `message` dict, `raw["conversation"]["id"]` when present,
and `raw` itself read as a message dict (its own `conversation_id` and `id`). -/
structure SendResp where
  message : Option MsgData
  conversationId : Option String
  rawConversationId : Option String
  rawId : Option String
deriving Repr, DecidableEq

/-- `message_data = raw.get("message", raw)`. -/
def msgData (r : SendResp) : MsgData :=
  match r.message with
  | some m => m
  | none => { conversation_id := r.rawConversationId, id := r.rawId }

/-- The backend as seen by the client: the four HTTP endpoints `ask` uses.
`getMessage cid mid k` is the status-poll reply at iteration `k` (the index
models the external world changing between polls); `none` is a transport
failure everywhere. -/
structure Backend where
  startConversation : String → Option SendResp
  createMessage : String → String → Option SendResp
  getMessage : String → String → Nat → Option GenieMsg
  getQueryResult : String → String → String → Option QueryResult

/-- The send step of `ask`: `create_message` when a truthy conversation id was
passed, else `start_conversation`. -/
def sendStep (b : Backend) (question : String) (conversation_id : Option String) :
    Option SendResp :=
  if pyStrTruthy conversation_id then b.createMessage (conversation_id.getD "") question
  else b.startConversation question

/-- `GenieClient.ask`: send, extract ids, poll, parse. -/
def ask (b : Backend) (interval maxWait : Nat) (question : String)
    (conversation_id : Option String) : NormalizedAnswer :=
  match sendStep b question conversation_id with
  | none =>
    { success := false, conversation_id := conversation_id, message_id := none,
      text := none, sql := none, result_data := none, attachments := [],
      error := some "Failed to send message to Genie" }
  | some raw =>
    let md := msgData raw
    let cid := pyOr (pyOr md.conversation_id raw.conversationId) conversation_id
    let mid := pyOr md.id raw.rawId
    if pyStrTruthy cid && pyStrTruthy mid then
      let cidS := cid.getD ""
      let midS := mid.getD ""
      match (pollUntilDone (b.getMessage cidS midS) interval maxWait).1 with
      | none =>
        { success := false, conversation_id := cid, message_id := mid,
          text := none, sql := none, result_data := none, attachments := [],
          error := some "Timed out waiting for Genie response" }
      | some m => parseResponse (b.getQueryResult cidS midS) cidS midS m
    else
      { success := false, conversation_id := conversation_id, message_id := none,
        text := none, sql := none, result_data := none, attachments := [],
        error := some "Could not extract conversation/message IDs from response" }

/-! ## `slack_bot.py`: formatting -/

/-- `SlackGenieBot._format_answer`. -/
def formatAnswer (result : NormalizedAnswer) : String :=
  if result.success then
    match pyOr result.text (some "Query executed successfully.") with
    | some s => s
    | none => "Query executed successfully."
  else
    "Sorry, something went wrong: " ++ result.error.getD "unknown error"

/-- `c.get("name", f"col_{i}")`. -/
def colName (i : Nat) (c : ColumnMeta) : String :=
  c.name.getD ("col_" ++ toString i)

/-- `[c.get("name", f"col_{i}") for i, c in enumerate(columns_meta)]`. -/
def colNames (cols : List ColumnMeta) : List String :=
  cols.enum.map (fun p => colName p.1 p.2)

/-- The inner `for i, val in enumerate(row): widths[i] = max(widths[i], len(...))`
loop of `_format_query_result`.  When the row has more values than there are
widths, the Python loop raises `IndexError`: that is `Except.error ()`. -/
def updateWidthsGo : List Nat → List (Option String) → Except Unit (List Nat)
  | ws, [] => Except.ok ws
  | [], _ :: _ => Except.error ()
  | w :: ws, v :: vs =>
    match updateWidthsGo ws vs with
    | Except.ok rest => Except.ok (max w (cellStr v).length :: rest)
    | Except.error e => Except.error e

/-- Pure (never-failing) variant of the width update, used to state what the
loop computes when it does not raise. -/
def updateW : List Nat → List (Option String) → List Nat
  | ws, [] => ws
  | [], _ :: _ => []
  | w :: ws, v :: vs => max w (cellStr v).length :: updateW ws vs

/-- The width computation of `_format_query_result`: header lengths, the update
loop over the displayed rows, then `min(w, 30)` per column. -/
def computeWidths (rd : QueryResult) (max_rows : Nat) : Except Unit (List Nat) :=
  match (rd.data_array.take max_rows).foldlM updateWidthsGo
      ((colNames rd.columns).map String.length) with
  | Except.ok ws => Except.ok (ws.map (fun w => min w 30))
  | Except.error e => Except.error e

/-- `s[:w].ljust(w)`: truncate to `w` characters, then pad with spaces to `w`. -/
def ljustTrunc (s : String) (w : Nat) : String :=
  String.mk (s.data.take w ++ List.replicate (w - (s.data.take w).length) ' ')

/-- The local `fmt_row` of `_format_query_result` (`zip` truncates at the
shorter list, so extra widths or extra values are silently dropped). -/
def fmtRow (widths : List Nat) (values : List (Option String)) : String :=
  String.intercalate " | " ((values.zip widths).map (fun p => ljustTrunc (cellStr p.1) p.2))

/-- The separator line: `"-+-".join("-" * w for w in widths)`. -/
def sepLine (widths : List Nat) : String :=
  String.intercalate "-+-" (widths.map (fun w => String.mk (List.replicate w '-')))

/-- The `lines` list of `_format_query_result`: header, separator, then one line
per displayed row. -/
def formatLines (rd : QueryResult) (max_rows : Nat) : Except Unit (List String) :=
  match computeWidths rd max_rows with
  | Except.error e => Except.error e
  | Except.ok widths =>
    Except.ok (fmtRow widths ((colNames rd.columns).map some)
      :: sepLine widths
      :: (rd.data_array.take max_rows).map (fun r => fmtRow widths r))

/-- `SlackGenieBot._format_query_result`.  `Except.ok none` is Python `None`
(no rows or no schema); `Except.error ()` is the `IndexError` raised by the
width-update loop on an over-wide row. -/
def formatQueryResult (rd : QueryResult) (max_rows : Nat) : Except Unit (Option String) :=
  if rd.data_array.isEmpty ∨ rd.columns.isEmpty then Except.ok none
  else
    match formatLines rd max_rows with
    | Except.error e => Except.error e
    | Except.ok lines =>
      let total := rd.row_count.getD rd.data_array.length
      let footer := if total > max_rows then
          "\n_Showing " ++ toString max_rows ++ " of " ++ toString total ++ " rows_"
        else ""
      Except.ok (some ("*Query Results:*\n" ++ "```" ++ "\n" ++
        String.intercalate "\n" lines ++ "\n" ++ "```" ++ footer))

/-! ## `slack_bot.py`: the bot's state and handlers -/

/-- The two in-memory maps of `SlackGenieBot`: `thread_conversations`
(thread ts → conversation id) and `feedback_map` (posted message ts →
(conversation id, message id)). -/
structure BotState where
  thread_conversations : String → Option String
  feedback_map : String → Option (String × String)

/-- `self.thread_conversations[thread_ts] = v`. -/
def setBinding (tc : String → Option String) (k : String) (v : Option String) :
    String → Option String :=
  fun t => if t = k then v else tc t

/-- The fields of an inbound Slack question event that `_handle_question` reads. -/
structure QuestionEvent where
  bot_id : Option String
  text : String
  channel : String
  thread_ts : Option String
  ts : String
deriving Repr, DecidableEq

/-- Observable outbound actions of the handlers, in order of occurrence. -/
inductive SlackEffect where
  | say : String → String → SlackEffect
  | postMessage : String → String → String → SlackEffect
  | feedbackButtons : String → String → SlackEffect
  | submitFeedback : String → String → String → SlackEffect
  | chatUpdate : String → String → SlackEffect
deriving Repr, DecidableEq

/-- `thread_ts = event.get("thread_ts") or event["ts"]`. -/
def eventThreadTs (ev : QuestionEvent) : String :=
  match ev.thread_ts with
  | some s => if s = "" then ev.ts else s
  | none => ev.ts

/-- The tail of `_handle_question` after the optional table message: post the
feedback buttons when the answer succeeded with both ids truthy, and on a
successful post record the binding in `feedback_map`.  `sendButtons` is the
`chat_postMessage` oracle, returning the posted prompt's ts (`fb_resp["ts"]`)
or `none` when posting failed. -/
def afterTable (sendButtons : String → String → Option String) (result : NormalizedAnswer)
    (channel threadTs : String) (st : BotState) (effs : List SlackEffect) :
    BotState × List SlackEffect × Bool :=
  if result.success && pyStrTruthy result.conversation_id && pyStrTruthy result.message_id then
    let effs2 := effs ++ [SlackEffect.feedbackButtons channel threadTs]
    match sendButtons channel threadTs with
    | some ts =>
      ({ st with feedback_map := fun k =>
          if k = ts then some (result.conversation_id.getD "", result.message_id.getD "")
          else st.feedback_map k }, effs2, false)
    | none => (st, effs2, false)
  else (st, effs, false)

/-- `SlackGenieBot._handle_question`.  `stripMention` is `_strip_mention`
(regex removal of mention markup, kept abstract), `genieAsk` is the injected
`GenieClient.ask`.  The returned `Bool` is true when the handler raised an
unhandled exception (the `IndexError` of `_format_query_result`); state
mutations and effects before the raise persist, later steps are skipped. -/
def handleQuestion (stripMention : String → String)
    (genieAsk : String → Option String → NormalizedAnswer)
    (sendButtons : String → String → Option String)
    (st : BotState) (ev : QuestionEvent) : BotState × List SlackEffect × Bool :=
  if pyStrTruthy ev.bot_id then (st, [], false)
  else
    let text := stripMention ev.text
    let threadTs := eventThreadTs ev
    if pyStrip text = "" then
      (st, [SlackEffect.say "Please ask me a question about your data!" threadTs], false)
    else
      let conversation_id := st.thread_conversations threadTs
      let result := genieAsk text conversation_id
      let st1 := if pyStrTruthy result.conversation_id then
          { st with thread_conversations :=
              setBinding st.thread_conversations threadTs result.conversation_id }
        else st
      let answer := formatAnswer result
      let effs := [SlackEffect.postMessage ev.channel "Thinking..." threadTs,
                   SlackEffect.say answer threadTs]
      match result.result_data with
      | some rd =>
        match formatQueryResult rd 15 with
        | Except.error _ => (st1, effs, true)
        | Except.ok none => afterTable sendButtons result ev.channel threadTs st1 effs
        | Except.ok (some t) =>
          afterTable sendButtons result ev.channel threadTs st1
            (effs ++ [SlackEffect.say t threadTs])
      | none => afterTable sendButtons result ev.channel threadTs st1 effs

/-- `SlackGenieBot._handle_feedback`.  `msgTs` is
`body.get("message", {}).get("ts")`; `sendFeedbackFn` is
`GenieClient.send_feedback`. -/
def handleFeedback (sendFeedbackFn : String → String → String → Bool)
    (st : BotState) (msgTs : Option String) (rating : String) :
    BotState × List SlackEffect :=
  match Option.bind msgTs st.feedback_map with
  | none => (st, [])
  | some info =>
    let ok := sendFeedbackFn info.1 info.2 rating
    let label := if ok then "Thanks for your feedback!" else "Failed to submit feedback."
    (st, [SlackEffect.submitFeedback info.1 info.2 rating,
          SlackEffect.chatUpdate label (msgTs.getD "")])

/-! ## Specification-side characterizations for the attachment loop -/

/-- The query string carried by an attachment, when it is a query attachment:
`some q.query` for a query attachment, `none` otherwise. -/
def queryOfAtt (a : Attachment) : Option (Option String) :=
  a.query.map (fun q => q.query)

/-- The query-result fetch an attachment triggers: `f aid` when the attachment
is a query attachment with a truthy attachment id, else `none`. -/
def attFetch (f : String → Option QueryResult) (a : Attachment) : Option QueryResult :=
  match a.query with
  | none => none
  | some _ =>
    match a.attachment_id with
    | none => none
    | some aid => if aid = "" then none else f aid

/-- The attachment ids an attachment causes to be fetched. -/
def fetchLog (a : Attachment) : List String :=
  match a.query, a.attachment_id with
  | some _, some aid => if aid = "" then [] else [aid]
  | _, _ => []

/-- The query string of the last query attachment in the list (its `query`
field, which may itself be missing). -/
def lastQueryString (atts : List Attachment) : Option String :=
  (atts.reverse.findSome? queryOfAtt).getD none

/-- The result of the last truthy query-result fetch triggered by the list. -/
def lastFetchedResult (f : String → Option QueryResult) (atts : List Attachment) :
    Option QueryResult :=
  atts.reverse.findSome? (attFetch f)

lemma findSome?_append {α β : Type} (l1 l2 : List α) (g : α → Option β) :
    (l1 ++ l2).findSome? g = match l1.findSome? g with
      | some b => some b
      | none => l2.findSome? g := by
  induction l1 with
  | nil => simp [List.findSome?]
  | cons a t ih =>
    simp only [List.cons_append, List.findSome?]
    cases g a <;> simp [ih]

lemma parseStep_fields (f : String → Option QueryResult) (s : ParseState) (a : Attachment) :
    (parseStep f s a).sql_text = (queryOfAtt a).getD s.sql_text ∧
    (parseStep f s a).result_data = (attFetch f a).elim s.result_data some ∧
    (parseStep f s a).fetched = s.fetched ++ fetchLog a := by
  rcases a with ⟨t, q, aid⟩
  cases t <;> cases q <;> cases aid <;>
    simp only [parseStep, queryOfAtt, attFetch, fetchLog] <;>
    (repeat' split) <;>
    simp_all

lemma foldl_parseStep_sql (f : String → Option QueryResult) (atts : List Attachment) :
    ∀ s, (atts.foldl (parseStep f) s).sql_text =
      (atts.reverse.findSome? queryOfAtt).getD s.sql_text := by
  induction atts with
  | nil => intro s; rfl
  | cons a t ih =>
    intro s
    rw [List.foldl_cons, ih, List.reverse_cons, findSome?_append]
    cases h : t.reverse.findSome? queryOfAtt with
    | some x => simp
    | none =>
      simp only [(parseStep_fields f s a).1]
      cases hq : queryOfAtt a <;> simp [List.findSome?, hq]

lemma foldl_parseStep_result (f : String → Option QueryResult) (atts : List Attachment) :
    ∀ s, (atts.foldl (parseStep f) s).result_data =
      (atts.reverse.findSome? (attFetch f)).elim s.result_data some := by
  induction atts with
  | nil => intro s; rfl
  | cons a t ih =>
    intro s
    rw [List.foldl_cons, ih, List.reverse_cons, findSome?_append]
    cases h : t.reverse.findSome? (attFetch f) with
    | some x => simp
    | none =>
      simp only [(parseStep_fields f s a).2.1]
      cases hq : attFetch f a <;> simp [List.findSome?, hq]

lemma foldl_parseStep_fetched (f : String → Option QueryResult) (atts : List Attachment) :
    ∀ s, (atts.foldl (parseStep f) s).fetched = s.fetched ++ atts.flatMap fetchLog := by
  induction atts with
  | nil => intro s; simp
  | cons a t ih =>
    intro s
    rw [List.foldl_cons, ih, (parseStep_fields f s a).2.2]
    simp [List.flatMap_cons, List.append_assoc]

/-- C1: For every COMPLETED message payload processed by the parse step of
`ask`, the query string of the last encountered query attachment is carried as
the generated query (`sql`), the attached query result is the one returned by
the last truthy fetch among the query attachments carrying a truthy attachment
id (so with multiple query attachments, only the last query string and the
last-fetched result win), and every query attachment carrying a (truthy)
attachment id — in particular the first — has its query result fetched. -/
theorem parse_last_query_wins (f : String → Option QueryResult) (cid mid : String)
    (msg : GenieMsg) (h : msg.status = some "COMPLETED") :
    (parseResponse f cid mid msg).sql = lastQueryString msg.attachments ∧
    (parseResponse f cid mid msg).result_data = lastFetchedResult f msg.attachments ∧
    ∀ a ∈ msg.attachments, ∀ aid : String, a.query.isSome → a.attachment_id = some aid →
      aid ≠ "" → aid ∈ (parseAttachments f msg.attachments).fetched := by
  have hcond : ¬ (msg.status ≠ some "COMPLETED") := by simp [h]
  refine ⟨?_, ?_, ?_⟩
  · simp only [parseResponse, if_neg hcond, parseAttachments]
    rw [foldl_parseStep_sql]
    rfl
  · simp only [parseResponse, if_neg hcond, parseAttachments]
    rw [foldl_parseStep_result]
    cases hq : msg.attachments.reverse.findSome? (attFetch f) <;>
      simp [lastFetchedResult, hq]
  · intro a ha aid hq haid hne
    unfold parseAttachments
    rw [foldl_parseStep_fetched]
    simp only [List.nil_append, List.mem_flatMap]
    refine ⟨a, ha, ?_⟩
    rcases hqv : a.query with _ | qv
    · rw [hqv] at hq; simp at hq
    · simp [fetchLog, hqv, haid, hne]

/-- Concrete payload for the C1 witness: two query attachments with ids. -/
def c1Msg : GenieMsg :=
  { status := some "COMPLETED",
    attachments := [
      { text := none, query := some { description := "d1", query := some "SELECT 1" },
        attachment_id := some "a1" },
      { text := none, query := some { description := "", query := some "SELECT 2" },
        attachment_id := some "a2" }],
    content := "", errorMessage := none }

/-- Concrete fetch oracle for the C1 witness. -/
def c1Fetch : String → Option QueryResult := fun aid =>
  if aid = "a1" then some { columns := [{ name := some "x" }], data_array := [[some "1"]], row_count := some 1 }
  else if aid = "a2" then some { columns := [], data_array := [], row_count := some 9 }
  else none

theorem parse_last_query_wins_witness :
    c1Msg.status = some "COMPLETED" ∧
    (parseResponse c1Fetch "c" "m" c1Msg).sql = lastQueryString c1Msg.attachments ∧
    (parseResponse c1Fetch "c" "m" c1Msg).result_data = lastFetchedResult c1Fetch c1Msg.attachments ∧
    (parseResponse c1Fetch "c" "m" c1Msg).sql = some "SELECT 2" ∧
    (parseResponse c1Fetch "c" "m" c1Msg).result_data =
      some { columns := [], data_array := [], row_count := some 9 } ∧
    "a1" ∈ (parseAttachments c1Fetch c1Msg.attachments).fetched := by
  have h := parse_last_query_wins c1Fetch "c" "m" c1Msg rfl
  refine ⟨rfl, h.1, h.2.1, by decide, by decide, ?_⟩
  exact h.2.2
    { text := none, query := some { description := "d1", query := some "SELECT 1" },
      attachment_id := some "a1" }
    (by simp [c1Msg]) "a1" (by decide) rfl (by decide)

/-! ## C8: round-trip of a single text attachment -/

/-- The concrete completed message of the C8 round-trip check. -/
def c8Msg : GenieMsg :=
  { status := some "COMPLETED",
    attachments := [{ text := some { content := "Revenue is up 12%" }, query := none,
                      attachment_id := none }],
    content := "", errorMessage := none }

/-- C8: a completed message whose attachments are exactly one text attachment
with content "Revenue is up 12%" and no query attachments parses to that text,
with no generated query and no query result. -/
theorem parse_text_roundtrip :
    (parseResponse (fun _ => none) "c" "m" c8Msg).text = some "Revenue is up 12%" ∧
    (parseResponse (fun _ => none) "c" "m" c8Msg).sql = none ∧
    (parseResponse (fun _ => none) "c" "m" c8Msg).result_data = none := by
  refine ⟨?_, ?_, ?_⟩ <;> rfl

/-! ## C5: the NormalizedAnswer invariant -/

lemma parseResponse_invariant (f : String → Option QueryResult) (cid mid : String)
    (msg : GenieMsg) :
    ((parseResponse f cid mid msg).success = false →
      (parseResponse f cid mid msg).error.isSome ∧
      (parseResponse f cid mid msg).text = none ∧
      (parseResponse f cid mid msg).result_data = none) ∧
    ((parseResponse f cid mid msg).success = true →
      (parseResponse f cid mid msg).error = none) := by
  unfold parseResponse
  split <;> simp

/-- C5: every NormalizedAnswer returned by `ask` satisfies the invariant:
success=false implies the error field is set and text / query result are
absent; success=true implies the error field is absent. -/
theorem normalized_answer_invariant (b : Backend) (i w : Nat) (q : String)
    (conv : Option String) :
    ((ask b i w q conv).success = false →
      (ask b i w q conv).error.isSome ∧
      (ask b i w q conv).text = none ∧
      (ask b i w q conv).result_data = none) ∧
    ((ask b i w q conv).success = true → (ask b i w q conv).error = none) := by
  rcases hs : sendStep b q conv with _ | raw
  · simp [ask, hs]
  · simp only [ask, hs]
    split
    · rcases hp : (pollUntilDone (b.getMessage _ _) i w).1 with _ | m
      · simp [hp]
      · simp only [hp]
        exact parseResponse_invariant _ _ _ _
    · simp

/-! ## C9: feedback with no recorded binding is a no-op -/

/-- C9: when the acted-upon message ts has no recorded binding, the feedback
handler changes nothing and emits no effect — no backend call, no user-visible
message. -/
theorem feedback_no_binding_noop (sf : String → String → String → Bool) (st : BotState)
    (msgTs : Option String) (rating : String)
    (h : Option.bind msgTs st.feedback_map = none) :
    handleFeedback sf st msgTs rating = (st, []) := by
  unfold handleFeedback
  rw [h]

/-- The bot state with both maps empty. -/
def emptyState : BotState := ⟨fun _ => none, fun _ => none⟩

theorem feedback_no_binding_noop_witness :
    Option.bind (some "123.45") emptyState.feedback_map = none ∧
    handleFeedback (fun _ _ _ => true) emptyState (some "123.45") "POSITIVE" =
      (emptyState, []) :=
  ⟨rfl, feedback_no_binding_noop _ _ _ _ rfl⟩

/-! ## C3 / C4: the poll loop -/

/-- `⌈w / i⌉`: the number of loop iterations whose logical start time `k * i`
lies below the deadline `w`. -/
def ceilDiv (w i : Nat) : Nat := (w + i - 1) / i

lemma lt_ceilDiv_of_mul_lt {k w i : Nat} (hi : 0 < i) (h : k * i < w) : k < ceilDiv w i := by
  have h2 : k + 1 ≤ (w + i - 1) / i := by
    refine (Nat.le_div_iff_mul_le hi).mpr ?_
    have h1 : (k + 1) * i = k * i + i := by rw [Nat.add_mul, Nat.one_mul]
    omega
  exact h2

lemma ceilDiv_le_of_le_mul {k w i : Nat} (hi : 0 < i) (h : ¬ k * i < w) : ceilDiv w i ≤ k := by
  rw [ceilDiv, Nat.div_le_iff_le_mul_add_pred hi]
  have := Nat.mul_comm i k
  omega

lemma ceilDiv_le_succ_self {w i : Nat} (hi : 0 < i) : ceilDiv w i ≤ w + 1 := by
  rw [ceilDiv, Nat.div_le_iff_le_mul_add_pred hi]
  have h2 : i * (w + 1) = i * w + i := Nat.mul_succ i w
  have h3 : w ≤ i * w := Nat.le_mul_of_pos_left w hi
  omega

lemma div_le_ceilDiv {w i : Nat} (_hi : 0 < i) : w / i ≤ ceilDiv w i :=
  Nat.div_le_div_right (by omega)

lemma ceilDiv_le_div_succ {w i : Nat} (hi : 0 < i) : ceilDiv w i ≤ w / i + 1 := by
  rw [ceilDiv, Nat.div_le_iff_le_mul_add_pred hi]
  have hdm := Nat.div_add_mod w i
  have hmod : w % i < i := Nat.mod_lt _ hi
  have h2 : i * (w / i + 1) = i * (w / i) + i := Nat.mul_succ i (w / i)
  omega

/-- A message is non-terminal for the poll loop when its status is none of
COMPLETED / FAILED / CANCELLED. -/
def nonTerminal (m : GenieMsg) : Prop :=
  m.status ≠ some "COMPLETED" ∧ m.status ≠ some "FAILED" ∧ m.status ≠ some "CANCELLED"

lemma pollGoF_never_terminal (fetch : Nat → Option GenieMsg) (i w : Nat) (hi : 0 < i)
    (hnt : ∀ k, ∃ m, fetch k = some m ∧ nonTerminal m) :
    ∀ fuel k, ceilDiv w i - k ≤ fuel →
      pollGoF fetch i w k fuel = (none, ceilDiv w i - k) := by
  intro fuel
  induction fuel with
  | zero =>
    intro k hk
    simp only [pollGoF, Prod.mk.injEq]
    exact ⟨trivial, by omega⟩
  | succ n ih =>
    intro k hk
    by_cases hg : k * i < w
    · obtain ⟨m, hm, h1, h2, h3⟩ := hnt k
      have hkc : k < ceilDiv w i := lt_ceilDiv_of_mul_lt hi hg
      have hrec : pollGoF fetch i w (k + 1) n = (none, ceilDiv w i - (k + 1)) :=
        ih (k + 1) (by omega)
      have hcond2 : ¬ (m.status = some "FAILED" ∨ m.status = some "CANCELLED") := by
        simp [h2, h3]
      simp only [pollGoF, if_pos hg, hm, if_neg h1, if_neg hcond2, hrec, Prod.mk.injEq]
      exact ⟨trivial, by omega⟩
    · have hck : ceilDiv w i ≤ k := ceilDiv_le_of_le_mul hi hg
      simp only [pollGoF, if_neg hg, Prod.mk.injEq]
      exact ⟨trivial, by omega⟩

lemma pollUntilDone_never_terminal (fetch : Nat → Option GenieMsg) (i w : Nat) (hi : 0 < i)
    (hnt : ∀ k, ∃ m, fetch k = some m ∧ nonTerminal m) :
    pollUntilDone fetch i w = (none, ceilDiv w i) := by
  have h := pollGoF_never_terminal fetch i w hi hnt (w + 1) 0
    (by have := ceilDiv_le_succ_self (w := w) hi; omega)
  simpa [pollUntilDone] using h

/-- C3: against a backend whose poll responses never reach a terminal status,
`ask` returns success=false with the timeout error, and the poll loop issues
`⌈max_wait / poll_interval⌉` status checks, which lies within 1 of
`max_wait / poll_interval`. -/
theorem ask_timeout_poll_count (b : Backend) (i w : Nat) (q : String)
    (conv : Option String) (raw : SendResp)
    (hi : 0 < i)
    (hsend : sendStep b q conv = some raw)
    (hcid : pyStrTruthy (pyOr (pyOr (msgData raw).conversation_id raw.conversationId) conv) = true)
    (hmid : pyStrTruthy (pyOr (msgData raw).id raw.rawId) = true)
    (hnt : ∀ cid mid k, ∃ m, b.getMessage cid mid k = some m ∧ nonTerminal m) :
    ask b i w q conv =
      { success := false,
        conversation_id := pyOr (pyOr (msgData raw).conversation_id raw.conversationId) conv,
        message_id := pyOr (msgData raw).id raw.rawId,
        text := none, sql := none, result_data := none, attachments := [],
        error := some "Timed out waiting for Genie response" } ∧
    ∀ cid mid, (pollUntilDone (b.getMessage cid mid) i w).2 = ceilDiv w i ∧
      w / i ≤ ceilDiv w i ∧ ceilDiv w i ≤ w / i + 1 := by
  constructor
  · have hpoll := pollUntilDone_never_terminal
      (b.getMessage ((pyOr (pyOr (msgData raw).conversation_id raw.conversationId) conv).getD "")
        ((pyOr (msgData raw).id raw.rawId).getD "")) i w hi (hnt _ _)
    simp only [ask, hsend, hcid, hmid, Bool.and_self, if_pos, hpoll]
  · intro cid mid
    have hpoll := pollUntilDone_never_terminal (b.getMessage cid mid) i w hi (hnt cid mid)
    exact ⟨by rw [hpoll], div_le_ceilDiv hi, ceilDiv_le_div_succ hi⟩

/-- Backend for the C3 witness: the send succeeds, every poll returns a
non-terminal EXECUTING message. -/
def c3Backend : Backend :=
  { startConversation := fun _ => some
      { message := some { conversation_id := some "c1", id := some "m1" },
        conversationId := none, rawConversationId := none, rawId := none },
    createMessage := fun _ _ => none,
    getMessage := fun _ _ _ => some
      { status := some "EXECUTING", attachments := [], content := "", errorMessage := none },
    getQueryResult := fun _ _ _ => none }

/-- The send reply of `c3Backend`. -/
def c3Raw : SendResp :=
  { message := some { conversation_id := some "c1", id := some "m1" },
    conversationId := none, rawConversationId := none, rawId := none }

theorem ask_timeout_poll_count_witness :
    (0 < 2 ∧ sendStep c3Backend "q" none = some c3Raw) ∧
    ask c3Backend 2 5 "q" none =
      { success := false,
        conversation_id := pyOr (pyOr (msgData c3Raw).conversation_id c3Raw.conversationId) none,
        message_id := pyOr (msgData c3Raw).id c3Raw.rawId,
        text := none, sql := none, result_data := none, attachments := [],
        error := some "Timed out waiting for Genie response" } ∧
    (pollUntilDone (c3Backend.getMessage "c1" "m1") 2 5).2 = ceilDiv 5 2 ∧
    5 / 2 ≤ ceilDiv 5 2 ∧ ceilDiv 5 2 ≤ 5 / 2 + 1 := by
  have h := ask_timeout_poll_count c3Backend 2 5 "q" none c3Raw (by decide) rfl rfl rfl
    (fun cid mid k =>
      ⟨{ status := some "EXECUTING", attachments := [], content := "", errorMessage := none },
        rfl, by decide, by decide, by decide⟩)
  exact ⟨⟨by decide, rfl⟩, h.1, (h.2 "c1" "m1").1, (h.2 "c1" "m1").2.1, (h.2 "c1" "m1").2.2⟩

lemma pollGoF_abort_on_failure (fetch : Nat → Option GenieMsg) (i w j : Nat) (_hi : 0 < i)
    (hj : j * i < w)
    (hbef : ∀ k, k < j → ∃ m, fetch k = some m ∧ nonTerminal m)
    (hat : fetch j = none) :
    ∀ fuel k, k ≤ j → j - k < fuel → pollGoF fetch i w k fuel = (none, j + 1 - k) := by
  intro fuel
  induction fuel with
  | zero => intro k hk hf; omega
  | succ n ih =>
    intro k hk hf
    have hg : k * i < w := by
      have : k * i ≤ j * i := Nat.mul_le_mul_right i hk
      omega
    rcases Nat.lt_or_ge k j with hlt | hge
    · obtain ⟨m, hm, h1, h2, h3⟩ := hbef k hlt
      have hrec : pollGoF fetch i w (k + 1) n = (none, j + 1 - (k + 1)) :=
        ih (k + 1) (by omega) (by omega)
      have hcond2 : ¬ (m.status = some "FAILED" ∨ m.status = some "CANCELLED") := by
        simp [h2, h3]
      simp only [pollGoF, if_pos hg, hm, if_neg h1, if_neg hcond2, hrec, Prod.mk.injEq]
      exact ⟨trivial, by omega⟩
    · have hkj : k = j := by omega
      subst hkj
      simp only [pollGoF, if_pos hg, hat, Prod.mk.injEq]
      exact ⟨trivial, by omega⟩

/-- C4: when a poll iteration's status fetch returns a transport failure (all
earlier iterations having returned non-terminal statuses), polling aborts at
that iteration — exactly `j + 1` status checks are issued — and `ask` yields
the timeout-style failure with success=false. -/
theorem poll_transport_failure_aborts (b : Backend) (i w : Nat) (q : String)
    (conv : Option String) (raw : SendResp) (j : Nat)
    (hi : 0 < i)
    (hsend : sendStep b q conv = some raw)
    (hcid : pyStrTruthy (pyOr (pyOr (msgData raw).conversation_id raw.conversationId) conv) = true)
    (hmid : pyStrTruthy (pyOr (msgData raw).id raw.rawId) = true)
    (hj : j * i < w)
    (hbef : ∀ cid mid k, k < j → ∃ m, b.getMessage cid mid k = some m ∧ nonTerminal m)
    (hat : ∀ cid mid, b.getMessage cid mid j = none) :
    ask b i w q conv =
      { success := false,
        conversation_id := pyOr (pyOr (msgData raw).conversation_id raw.conversationId) conv,
        message_id := pyOr (msgData raw).id raw.rawId,
        text := none, sql := none, result_data := none, attachments := [],
        error := some "Timed out waiting for Genie response" } ∧
    ∀ cid mid, (pollUntilDone (b.getMessage cid mid) i w).2 = j + 1 := by
  have hjw : j < w + 1 := by
    have : j ≤ j * i := Nat.le_mul_of_pos_right j hi
    omega
  constructor
  · have hpoll := pollGoF_abort_on_failure
      (b.getMessage ((pyOr (pyOr (msgData raw).conversation_id raw.conversationId) conv).getD "")
        ((pyOr (msgData raw).id raw.rawId).getD "")) i w j hi hj (hbef _ _) (hat _ _)
      (w + 1) 0 (by omega) (by omega)
    simp only [ask, hsend, hcid, hmid, Bool.and_self, if_pos, pollUntilDone, hpoll]
  · intro cid mid
    have hpoll := pollGoF_abort_on_failure (b.getMessage cid mid) i w j hi hj
      (hbef cid mid) (hat cid mid) (w + 1) 0 (by omega) (by omega)
    simp [pollUntilDone, hpoll]

/-- Backend for the C4 witness: the first poll returns a non-terminal message,
the second poll fails at transport level. -/
def c4Backend : Backend :=
  { startConversation := fun _ => some c3Raw,
    createMessage := fun _ _ => none,
    getMessage := fun _ _ k =>
      if k = 0 then some
        { status := some "EXECUTING", attachments := [], content := "", errorMessage := none }
      else none,
    getQueryResult := fun _ _ _ => none }

theorem poll_transport_failure_aborts_witness :
    (0 < 2 ∧ sendStep c4Backend "q" none = some c3Raw ∧ (1 : Nat) * 2 < 90) ∧
    ask c4Backend 2 90 "q" none =
      { success := false,
        conversation_id := pyOr (pyOr (msgData c3Raw).conversation_id c3Raw.conversationId) none,
        message_id := pyOr (msgData c3Raw).id c3Raw.rawId,
        text := none, sql := none, result_data := none, attachments := [],
        error := some "Timed out waiting for Genie response" } ∧
    (pollUntilDone (c4Backend.getMessage "c1" "m1") 2 90).2 = 1 + 1 := by
  have h := poll_transport_failure_aborts c4Backend 2 90 "q" none c3Raw 1 (by decide) rfl rfl rfl
    (by decide)
    (by
      intro cid mid k hk
      have hk0 : k = 0 := by omega
      subst hk0
      exact ⟨{ status := some "EXECUTING", attachments := [], content := "", errorMessage := none },
        rfl, by decide, by decide, by decide⟩)
    (fun cid mid => rfl)
  exact ⟨⟨by decide, rfl, by decide⟩, h.1, h.2 "c1" "m1"⟩

/-! ## C2: the thread → conversation binding -/

lemma afterTable_thread_conversations (sb : String → String → Option String)
    (r : NormalizedAnswer) (c t : String) (st : BotState) (effs : List SlackEffect) :
    (afterTable sb r c t st effs).1.thread_conversations = st.thread_conversations := by
  unfold afterTable
  split
  · split <;> rfl
  · rfl

/-- C2 (amended): the thread binding is last-write-wins, not first-write-wins:
whenever a handled question's ask result carries a truthy conversation_id, the
tracker rebinds the thread to that id.  In particular two sequential asks in
one thread returning different conversation_ids leave the tracker recording
the second; the binding stays constant only when the backend echoes the same
conversation_id on follow-ups. -/
theorem thread_binding_last_write (sm : String → String)
    (genieAsk : String → Option String → NormalizedAnswer)
    (sb : String → String → Option String) (st : BotState) (ev : QuestionEvent)
    (hbot : pyStrTruthy ev.bot_id = false)
    (htxt : ¬ pyStrip (sm ev.text) = "")
    (hcid : pyStrTruthy
      (genieAsk (sm ev.text) (st.thread_conversations (eventThreadTs ev))).conversation_id
      = true) :
    (handleQuestion sm genieAsk sb st ev).1.thread_conversations (eventThreadTs ev) =
      (genieAsk (sm ev.text) (st.thread_conversations (eventThreadTs ev))).conversation_id := by
  unfold handleQuestion
  simp only [hbot, Bool.false_eq_true, if_false, htxt, ite_false, hcid, if_true]
  split
  · split
    · simp [setBinding]
    · rw [afterTable_thread_conversations]
      simp [setBinding]
    · rw [afterTable_thread_conversations]
      simp [setBinding]
  · rw [afterTable_thread_conversations]
    simp [setBinding]

/-- Backend for the C2 scenario: `start_conversation` reports conversation
"c1"; a follow-up `create_message` reports conversation "c2" (a mock backend
returning a different conversation id on the second ask); every message
completes immediately. -/
def c2Backend : Backend :=
  { startConversation := fun _ => some
      { message := some { conversation_id := some "c1", id := some "m1" },
        conversationId := none, rawConversationId := none, rawId := none },
    createMessage := fun _ _ => some
      { message := none, conversationId := none,
        rawConversationId := some "c2", rawId := some "m2" },
    getMessage := fun _ _ _ => some
      { status := some "COMPLETED", attachments := [], content := "ok", errorMessage := none },
    getQueryResult := fun _ _ _ => none }

/-- First question event of the C2 scenario (thread root "t1"). -/
def c2Ev1 : QuestionEvent :=
  { bot_id := none, text := "q1", channel := "C", thread_ts := none, ts := "t1" }

/-- Second question event of the C2 scenario (a follow-up in thread "t1"). -/
def c2Ev2 : QuestionEvent :=
  { bot_id := none, text := "q2", channel := "C", thread_ts := some "t1", ts := "t2" }

/-- C2 is false on the code: after a first ask in thread "t1" binds
conversation "c1", a second ask in the same thread whose result carries
conversation "c2" leaves the tracker recording "c2", not the first id. -/
theorem thread_binding_overwrite_cex :
    ((handleQuestion id (ask c2Backend 2 5) (fun _ _ => none) emptyState
        c2Ev1).1.thread_conversations "t1" = some "c1") ∧
    ((handleQuestion id (ask c2Backend 2 5) (fun _ _ => none)
        (handleQuestion id (ask c2Backend 2 5) (fun _ _ => none) emptyState c2Ev1).1
        c2Ev2).1.thread_conversations "t1" = some "c2") ∧
    (some "c2" : Option String) ≠ some "c1" := by
  refine ⟨rfl, rfl, by decide⟩

theorem thread_binding_last_write_witness :
    pyStrTruthy c2Ev1.bot_id = false ∧
    ¬ pyStrip (id c2Ev1.text) = "" ∧
    pyStrTruthy (ask c2Backend 2 5 (id c2Ev1.text)
      (emptyState.thread_conversations (eventThreadTs c2Ev1))).conversation_id = true ∧
    (handleQuestion id (ask c2Backend 2 5) (fun _ _ => none) emptyState
        c2Ev1).1.thread_conversations (eventThreadTs c2Ev1) =
      (ask c2Backend 2 5 (id c2Ev1.text)
        (emptyState.thread_conversations (eventThreadTs c2Ev1))).conversation_id :=
  ⟨rfl, by decide, rfl,
    thread_binding_last_write id (ask c2Backend 2 5) (fun _ _ => none) emptyState c2Ev1
      rfl (by decide) rfl⟩

/-! ## C6 / C7 / C10: the table formatter -/

lemma updateWidthsGo_ok : ∀ (row : List (Option String)) (ws : List Nat),
    row.length ≤ ws.length → updateWidthsGo ws row = Except.ok (updateW ws row) := by
  intro row
  induction row with
  | nil => intro ws h; cases ws <;> rfl
  | cons v vs ih =>
    intro ws h
    cases ws with
    | nil => simp at h
    | cons w ws =>
      have hih := ih ws (by simpa using h)
      simp [updateWidthsGo, updateW, hih]

lemma updateW_length : ∀ (row : List (Option String)) (ws : List Nat),
    (updateW ws row).length = ws.length := by
  intro row
  induction row with
  | nil => intro ws; cases ws <;> rfl
  | cons v vs ih =>
    intro ws
    cases ws with
    | nil => rfl
    | cons w ws => simp [updateW, ih]

lemma updateW_get? : ∀ (row : List (Option String)) (ws : List Nat) (i : Nat),
    (updateW ws row).get? i =
      if i < row.length then
        (ws.get? i).map (fun w => max w (cellStr (row.getD i none)).length)
      else ws.get? i := by
  intro row
  induction row with
  | nil => intro ws i; simp [updateW]
  | cons v vs ih =>
    intro ws i
    cases ws with
    | nil => simp [updateW]
    | cons w ws =>
      cases i with
      | zero => simp [updateW]
      | succ i =>
        simp only [updateW, List.get?, ih, List.getD_cons_succ, List.length_cons,
          Nat.succ_lt_succ_iff]

lemma foldlM_updateWidthsGo_ok : ∀ (rows : List (List (Option String))) (ws : List Nat),
    (∀ r ∈ rows, r.length ≤ ws.length) →
    rows.foldlM updateWidthsGo ws = Except.ok (rows.foldl updateW ws) := by
  intro rows
  induction rows with
  | nil => intro ws h; rfl
  | cons r rows ih =>
    intro ws h
    have h1 : updateWidthsGo ws r = Except.ok (updateW ws r) :=
      updateWidthsGo_ok r ws (h r (List.mem_cons_self r rows))
    have h2 : rows.foldlM updateWidthsGo (updateW ws r) =
        Except.ok (rows.foldl updateW (updateW ws r)) := by
      refine ih (updateW ws r) ?_
      intro r2 hr2
      rw [updateW_length]
      exact h r2 (List.mem_cons_of_mem r hr2)
    simp [List.foldlM_cons, h1, h2, Bind.bind, Except.bind]

lemma foldl_updateW_length : ∀ (rows : List (List (Option String))) (ws : List Nat),
    (rows.foldl updateW ws).length = ws.length := by
  intro rows
  induction rows with
  | nil => intro ws; rfl
  | cons r rows ih =>
    intro ws
    rw [List.foldl_cons, ih, updateW_length]

lemma foldl_updateW_get? : ∀ (rows : List (List (Option String))) (ws : List Nat)
    (i w : Nat), ws.get? i = some w → (∀ r ∈ rows, r.length = ws.length) →
    (rows.foldl updateW ws).get? i =
      some ((rows.map (fun r => (cellStr (r.getD i none)).length)).foldl max w) := by
  intro rows
  induction rows with
  | nil => intro ws i w h _; simpa using h
  | cons r rows ih =>
    intro ws i w h hyp
    have hiw : i < ws.length := by
      rw [List.get?_eq_getElem?] at h
      rcases List.getElem?_eq_some.mp h with ⟨h1, _⟩
      exact h1
    have hir : i < r.length := by
      rw [hyp r (List.mem_cons_self r rows)]
      exact hiw
    have h1 : (updateW ws r).get? i = some (max w (cellStr (r.getD i none)).length) := by
      rw [updateW_get?, if_pos hir, h]
      rfl
    have h2 := ih (updateW ws r) i (max w (cellStr (r.getD i none)).length) h1
      (fun r2 hr2 => by rw [updateW_length]; exact hyp r2 (List.mem_cons_of_mem r hr2))
    rw [List.foldl_cons, h2]
    simp

lemma colNames_length (cols : List ColumnMeta) : (colNames cols).length = cols.length := by
  simp [colNames]

lemma computeWidths_ok (rd : QueryResult) (m : Nat)
    (hA : ∀ r ∈ rd.data_array.take m, r.length ≤ rd.columns.length) :
    computeWidths rd m = Except.ok
      (((rd.data_array.take m).foldl updateW ((colNames rd.columns).map String.length)).map
        (fun w => min w 30)) := by
  unfold computeWidths
  rw [foldlM_updateWidthsGo_ok]
  intro r hr
  rw [List.length_map, colNames_length]
  exact hA r hr

lemma ljustTrunc_length (s : String) (w : Nat) : (ljustTrunc s w).length = w := by
  show (s.data.take w ++ List.replicate (w - (s.data.take w).length) ' ').length = w
  simp only [List.length_append, List.length_take, List.length_replicate]
  omega

/-- C6: `format_table` returns nothing when there are no rows or no schema
columns; otherwise (on rows of arity within the schema) it renders exactly
`2 + min(len(rows), max_rows)` lines — a header, a separator, and at most
`max_rows` data rows regardless of input size. -/
theorem format_table_line_count (rd : QueryResult) (m : Nat)
    (hA : ∀ r ∈ rd.data_array, r.length ≤ rd.columns.length) :
    (rd.data_array.isEmpty ∨ rd.columns.isEmpty → formatQueryResult rd m = Except.ok none) ∧
    (¬ (rd.data_array.isEmpty ∨ rd.columns.isEmpty) →
      ∃ ls, formatLines rd m = Except.ok ls ∧
        ls.length = 2 + min rd.data_array.length m ∧
        ∃ s, formatQueryResult rd m = Except.ok (some s)) := by
  have hcw := computeWidths_ok rd m (fun r hr => hA r (List.take_subset m rd.data_array hr))
  constructor
  · intro h
    unfold formatQueryResult
    rw [if_pos h]
  · intro h
    have hlines : formatLines rd m = Except.ok
        (fmtRow (((rd.data_array.take m).foldl updateW
            ((colNames rd.columns).map String.length)).map (fun w => min w 30))
            ((colNames rd.columns).map some)
          :: sepLine (((rd.data_array.take m).foldl updateW
            ((colNames rd.columns).map String.length)).map (fun w => min w 30))
          :: (rd.data_array.take m).map (fun r => fmtRow
            (((rd.data_array.take m).foldl updateW
              ((colNames rd.columns).map String.length)).map (fun w => min w 30)) r)) := by
      unfold formatLines
      rw [hcw]
    refine ⟨_, hlines, ?_, ?_⟩
    · simp only [List.length_cons, List.length_map, List.length_take]
      omega
    · unfold formatQueryResult
      rw [if_neg h, hlines]
      exact ⟨_, rfl⟩

/-- C7: on a displayed-row set of schema arity, every computed column width is
`min 30 (max(header length, max cell length across the displayed rows))`, and
every rendered cell is truncated-and-padded to exactly its column width, which
never exceeds 30 characters. -/
theorem format_table_widths (rd : QueryResult) (m : Nat)
    (hA : ∀ r ∈ rd.data_array.take m, r.length = rd.columns.length) :
    ∃ ws, computeWidths rd m = Except.ok ws ∧
      ws.length = rd.columns.length ∧
      (∀ i w, ws.get? i = some w →
        w = min (((rd.data_array.take m).map (fun r => (cellStr (r.getD i none)).length)).foldl
            max ((colNames rd.columns).getD i "").length) 30) ∧
      (∀ w ∈ ws, w ≤ 30) ∧
      (∀ s : String, ∀ w ∈ ws, (ljustTrunc s w).length = w) := by
  have hcw := computeWidths_ok rd m (fun r hr => le_of_eq (hA r hr))
  refine ⟨_, hcw, ?_, ?_, ?_, ?_⟩
  · rw [List.length_map, foldl_updateW_length, List.length_map, colNames_length]
  · intro i w hw
    rw [List.get?_eq_getElem?, List.getElem?_map] at hw
    cases hL : ((rd.data_array.take m).foldl updateW
        ((colNames rd.columns).map String.length))[i]? with
    | none => rw [hL] at hw; simp at hw
    | some x =>
      rw [hL] at hw
      have hw2 : min x 30 = w := by simpa using hw
      have hiL : i < ((rd.data_array.take m).foldl updateW
          ((colNames rd.columns).map String.length)).length := by
        rcases List.getElem?_eq_some.mp hL with ⟨h1, _⟩
        exact h1
      have hicn : i < (colNames rd.columns).length := by
        rw [foldl_updateW_length, List.length_map] at hiL
        exact hiL
      cases hnm : (colNames rd.columns).get? i with
      | none =>
        rw [List.get?_eq_getElem?] at hnm
        rw [List.getElem?_eq_none_iff] at hnm
        omega
      | some nm =>
        have hws0 : ((colNames rd.columns).map String.length).get? i = some nm.length := by
          rw [List.get?_eq_getElem?, List.getElem?_map, ← List.get?_eq_getElem?, hnm]
          rfl
        have harity : ∀ r ∈ rd.data_array.take m,
            r.length = ((colNames rd.columns).map String.length).length := by
          intro r hr
          rw [List.length_map, colNames_length]
          exact hA r hr
        have hfold := foldl_updateW_get? (rd.data_array.take m)
          ((colNames rd.columns).map String.length) i nm.length hws0 harity
        rw [List.get?_eq_getElem?, hL] at hfold
        have hx : x = ((rd.data_array.take m).map
            (fun r => (cellStr (r.getD i none)).length)).foldl max nm.length := by
          exact Option.some.inj hfold
        have hgd : (colNames rd.columns).getD i "" = nm := by
          rw [List.getD_eq_getElem?_getD, ← List.get?_eq_getElem?, hnm]
          rfl
        rw [← hw2, hx, hgd]
  · intro w hw
    rcases List.mem_map.mp hw with ⟨x, _, rfl⟩
    exact min_le_right x 30
  · intro s w _
    exact ljustTrunc_length s w

/-- C10: when every displayed row has at most as many values as there are
schema columns, the width-update loop stays in range and `format_table`
evaluates without error (rows shorter than the schema render fine: `zip`
simply omits the trailing cells).  Without the precondition — a row strictly
wider than the width list — the width update raises (`Except.error`). -/
theorem format_table_arity_safety :
    (∀ (rd : QueryResult) (m : Nat),
      (∀ r ∈ rd.data_array.take m, r.length ≤ rd.columns.length) →
      ∃ out, formatQueryResult rd m = Except.ok out) ∧
    (∀ (ws : List Nat) (row : List (Option String)), ws.length < row.length →
      updateWidthsGo ws row = Except.error ()) ∧
    (∀ (ws : List Nat) (row : List (Option String)),
      ((row.zip ws).map (fun p => ljustTrunc (cellStr p.1) p.2)).length =
        min row.length ws.length) := by
  refine ⟨?_, ?_, ?_⟩
  · intro rd m hA
    have hcw := computeWidths_ok rd m hA
    by_cases h : rd.data_array.isEmpty ∨ rd.columns.isEmpty
    · refine ⟨none, ?_⟩
      unfold formatQueryResult
      rw [if_pos h]
    · unfold formatQueryResult formatLines
      rw [if_neg h, hcw]
      exact ⟨_, rfl⟩
  · intro ws
    induction ws with
    | nil => intro row h; cases row with
      | nil => simp at h
      | cons v vs => rfl
    | cons w ws ih =>
      intro row h
      cases row with
      | nil => simp at h
      | cons v vs =>
        have : updateWidthsGo ws vs = Except.error () := ih vs (by simpa using h)
        simp [updateWidthsGo, this]
  · intro ws row
    simp [List.length_zip]

/-- Concrete query result shared by the formatter witnesses: two columns,
three rows (one row deliberately shorter than the schema). -/
def c6Qr : QueryResult :=
  { columns := [{ name := some "region" }, { name := some "revenue" }],
    data_array := [[some "emea", some "10"], [some "apac"], [some "us", some "42"]],
    row_count := some 3 }

theorem format_table_line_count_witness :
    (∀ r ∈ c6Qr.data_array, r.length ≤ c6Qr.columns.length) ∧
    ∃ ls, formatLines c6Qr 2 = Except.ok ls ∧
      ls.length = 2 + min c6Qr.data_array.length 2 ∧
      ∃ s, formatQueryResult c6Qr 2 = Except.ok (some s) :=
  ⟨by decide, (format_table_line_count c6Qr 2 (by decide)).2 (by decide)⟩

/-- Concrete query result for the C7 witness: full schema arity. -/
def c7Qr : QueryResult :=
  { columns := [{ name := some "x" }],
    data_array := [[some "a-rather-long-cell-value-beyond-thirty-chars"], [some "b"]],
    row_count := some 2 }

theorem format_table_widths_witness :
    (∀ r ∈ c7Qr.data_array.take 15, r.length = c7Qr.columns.length) ∧
    ∃ ws, computeWidths c7Qr 15 = Except.ok ws ∧
      ws.length = c7Qr.columns.length ∧
      (∀ i w, ws.get? i = some w →
        w = min (((c7Qr.data_array.take 15).map (fun r => (cellStr (r.getD i none)).length)).foldl
            max ((colNames c7Qr.columns).getD i "").length) 30) ∧
      (∀ w ∈ ws, w ≤ 30) ∧
      (∀ s : String, ∀ w ∈ ws, (ljustTrunc s w).length = w) :=
  ⟨by decide, format_table_widths c7Qr 15 (by decide)⟩

theorem format_table_arity_safety_witness :
    (∀ r ∈ c6Qr.data_array.take 15, r.length ≤ c6Qr.columns.length) ∧
    ∃ out, formatQueryResult c6Qr 15 = Except.ok out :=
  ⟨by decide, format_table_arity_safety.1 c6Qr 15 (by decide)⟩
